import Mathlib

/-!
Shallow embedding of the MLLDSv2 spatial-tactical scoring engine and its
playback/interpolation layer, together with theorems checking the
specification's claims against the code.

Conventions of the embedding:
* JavaScript numbers are modelled as real numbers (`ℝ`) in the scoring
  engine (which uses `Math.sqrt`, `Math.exp`, `Math.tanh`, `Math.acos`),
  and as rationals (`ℚ`) in the playback-buffer / player-state fragment
  and the global-feature fragment, which use only field operations and
  comparisons (so every concrete run is exactly representable and
  decidable).
* In the real-number model every value is finite, so the source's
  `isFinite(x) ? x : 0` and `isFinite(x) ? x : 99` guards are the
  identity; each such place is noted with a comment.
* JavaScript `undefined` / `null` arguments are modelled with `Option`.
* Mutation of `this.playerMap` / `this.gapStates` is modelled by explicit
  state passing over association lists (JS `Map` preserves insertion
  order; each loop below touches each key at most once).
-/

open scoped Classical

set_option allowUnsafeReducibility true

attribute [local semireducible] Rat.add Rat.mul Rat.sub Rat.inv Rat.ofScientific

/-- Three.js `Vector3`: a triple of coordinates.  The engine works on the
ground plane x/z with y mostly fixed, but distances are full 3-D as in
three.js. -/
structure Vec3 where
  x : ℝ
  y : ℝ
  z : ℝ

/-- Three.js `subVectors(a, b)` = a - b, componentwise. -/
def Vec3.sub (a b : Vec3) : Vec3 := ⟨a.x - b.x, a.y - b.y, a.z - b.z⟩

/-- Three.js `lengthSq`. -/
noncomputable def Vec3.lengthSq (v : Vec3) : ℝ := v.x ^ 2 + v.y ^ 2 + v.z ^ 2

/-- Three.js `dot`. -/
noncomputable def Vec3.dot (a b : Vec3) : ℝ := a.x * b.x + a.y * b.y + a.z * b.z

/-- Three.js `distanceTo`: Euclidean distance. -/
noncomputable def Vec3.distanceTo (a b : Vec3) : ℝ :=
  Real.sqrt ((a.x - b.x) ^ 2 + (a.y - b.y) ^ 2 + (a.z - b.z) ^ 2)

/-- Three.js `MathUtils.clamp(value, min, max)` = `Math.max(min, Math.min(max, value))`. -/
noncomputable def clampReal (value lo hi : ℝ) : ℝ := max lo (min hi value)

/-- Three.js `angleTo`: `acos(clamp(dot / sqrt(lenSq * lenSq), -1, 1))`, with
the zero-denominator guard returning `pi / 2`. -/
noncomputable def Vec3.angleTo (a b : Vec3) : ℝ :=
  let denominator := Real.sqrt (a.lengthSq * b.lengthSq)
  if denominator = 0 then Real.pi / 2
  else Real.arccos (clampReal (a.dot b / denominator) (-1) 1)

/-- Three.js `lerpVectors(a, b, t)` = a + (b - a) * t, componentwise. -/
noncomputable def Vec3.lerpVectors (a b : Vec3) (t : ℝ) : Vec3 :=
  ⟨a.x + (b.x - a.x) * t, a.y + (b.y - a.y) * t, a.z + (b.z - a.z) * t⟩

/-- A live player object as the scoring engine reads it: `mesh.position`,
`velocity`, scalar `currentSpeed` and the role string from `playerData`.
The source's defensive `typeof p.currentSpeed !== "number" || isNaN(...)`
repair has no counterpart: `currentSpeed` is a (finite) real here. -/
structure Player where
  pos : Vec3
  velocity : Vec3
  currentSpeed : ℝ
  role : String

/-- utils.js `findClosestPlayer`: linear scan with a strict `<` against the
running minimum, which starts at `Infinity`; the `Infinity` starting value is
modelled by `none` in the second component.  The `!player || !player.mesh`
null guard has no counterpart in the typed model. -/
noncomputable def findClosestPlayer (targetPosition : Vec3) (players : List Player) :
    Option Player × Option ℝ :=
  players.foldl
    (fun acc p =>
      let d := p.pos.distanceTo targetPosition
      match acc.2 with
      | none => (some p, some d)
      | some m => if d < m then (some p, some d) else acc)
    (none, none)

/-- The `s` barycentric form from utils.js `isPointInTriangle` (the 2-D
projection drops the y axis, so the JS `p_2d.y` is our `z`). -/
noncomputable def triS (p p0 _p1 p2 : Vec3) : ℝ :=
  p0.z * p2.x - p0.x * p2.z + (p2.z - p0.z) * p.x + (p0.x - p2.x) * p.z

/-- The `t` barycentric form from utils.js `isPointInTriangle`. -/
noncomputable def triT (p p0 p1 _p2 : Vec3) : ℝ :=
  p0.x * p1.z - p0.z * p1.x + (p0.z - p1.z) * p.x + (p1.x - p0.x) * p.z

/-- The `A` form (twice the signed area) from utils.js `isPointInTriangle`. -/
noncomputable def triA (p0 p1 p2 : Vec3) : ℝ :=
  -p1.z * p2.x + p0.z * (p2.x - p1.x) + p0.x * (p1.z - p2.z) + p1.x * p2.z

/-- utils.js `isPointInTriangle`.  The JS `s < 0 !== t < 0` is the boolean
inequality of the two sign tests.  The null-argument guard has no counterpart
in the typed model (see `isPointInTriangleSpread` for the spread-call form). -/
noncomputable def isPointInTriangle (p p0 p1 p2 : Vec3) : Bool :=
  let s := triS p p0 p1 p2
  let t := triT p p0 p1 p2
  if (¬ (s < 0 ↔ t < 0)) ∧ s ≠ 0 ∧ t ≠ 0 then false
  else
    let A := triA p0 p1 p2
    if A < 0 then decide (s ≤ 0 ∧ A ≤ s + t) else decide (0 ≤ s ∧ s + t ≤ A)

/-- The call form `isPointInTriangle(pos, ...conePoints)`: a spread of a list
of points.  When the list does not supply three vertices the JS call receives
`undefined` arguments and the null guard returns `false`. -/
noncomputable def isPointInTriangleSpread (p : Vec3) (pts : List Vec3) : Bool :=
  match pts with
  | [a, b, c] => isPointInTriangle p a b c
  | _ => false

/-- All index pairs i < j of a list, in the loop order of
`getPassingCone`. -/
def pairsInOrder {α : Type} : List α → List (α × α)
  | [] => []
  | a :: rest => rest.map (fun b => (a, b)) ++ pairsInOrder rest

/-- Stable insertion step for the 2-element `sort((a, b) => a.z - b.z)` in
`getPassingCone` (ECMAScript sort is stable; insertion sort with `≤` is the
matching stable ascending sort). -/
noncomputable def insertByZ (v : Vec3) : List Vec3 → List Vec3
  | [] => [v]
  | w :: ws => if v.z ≤ w.z then v :: w :: ws else w :: insertByZ v ws

/-- Stable ascending sort by `z`, matching `Array.prototype.sort` with the
comparator `(a, b) => a.z - b.z`. -/
noncomputable def sortByZ : List Vec3 → List Vec3
  | [] => []
  | v :: vs => insertByZ v (sortByZ vs)

/-- utils.js `getPassingCone`: among all corner pairs pick the pair whose
subtended angle at `startPoint` is (first, strictly) maximal, starting from
`maxAngle = -1`; then sort the chosen pair by `z`.  Returns
`(points, corners)` = `([startPoint, c1, c2], [c1, c2])`. -/
noncomputable def getPassingCone (startPoint : Vec3) (quadCorners : List Vec3) :
    List Vec3 × List Vec3 :=
  let scan :=
    (pairsInOrder quadCorners).foldl
      (fun (acc : ℝ × List Vec3) pr =>
        let angle := (Vec3.sub pr.1 startPoint).angleTo (Vec3.sub pr.2 startPoint)
        if angle > acc.1 then (angle, [pr.1, pr.2]) else acc)
      (-1, [])
  let coneCorners := scan.2
  let sortedCorners := if coneCorners.length > 1 then sortByZ coneCorners else []
  (startPoint :: sortedCorners, sortedCorners)

/-- A leakage quadrant as handed to `calculateLs`: center, the four corner
points, and the precomputed planar area. -/
structure LQ where
  center : Vec3
  corners : List Vec3
  area : ℝ

/-- The goal structure: only `position` is read by the scoring engine. -/
structure Goal where
  position : Vec3

/-- Return record of `calculateTeamControlMetrics`. -/
structure TCMetrics where
  fastestTimeToArrival : ℝ
  ttas : List ℝ

/-- `Math.min(...ttas)` for a possibly-empty list, with `99` for the empty
spread (the source separately guards the empty case and coerces a non-finite
minimum to `99`; in the real-valued model the minimum of a nonempty list of
reals is always finite). -/
noncomputable def minOr99 (l : List ℝ) : ℝ :=
  match l.min? with
  | none => 99
  | some m => m

/-- Per-player TTA of the no-carrier branch of `calculateTeamControlMetrics`:
`distance / max(currentSpeed, 1.0)`. -/
noncomputable def noCarrierTTA (target : Vec3) (p : Player) : ℝ :=
  p.pos.distanceTo target / max p.currentSpeed 1.0

/-- Per-player TTA of the carrier/intercept branch of
`calculateTeamControlMetrics`, given the precomputed ball travel time. -/
noncomputable def interceptTTA (target : Vec3) (timeForBallToTravel : ℝ) (p : Player) : ℝ :=
  let effectiveSpeed := max p.currentSpeed 4.0
  let projectedPlayerPos : Vec3 :=
    ⟨p.pos.x + p.velocity.x * timeForBallToTravel,
     p.pos.y + p.velocity.y * timeForBallToTravel,
     p.pos.z + p.velocity.z * timeForBallToTravel⟩
  let interceptPoint := Vec3.lerpVectors target projectedPlayerPos 0.5
  let timeToIntercept := p.pos.distanceTo interceptPoint / effectiveSpeed
  max timeForBallToTravel timeToIntercept

/-- LsCalculator.js `calculateTeamControlMetrics(target, players,
carrierPosition = null)`.  The falsy test `if (!carrierPosition)` selects the
no-carrier branch when the third argument is `undefined`/`null` (`none`). -/
noncomputable def calculateTeamControlMetrics (target : Vec3) (players : List Player)
    (carrierPosition : Option Vec3) : TCMetrics :=
  match carrierPosition with
  | none =>
    match players with
    | [] => ⟨99, []⟩
    | _ :: _ =>
      let ttas := players.map (noCarrierTTA target)
      ⟨minOr99 ttas, ttas⟩
  | some cpos =>
    match players with
    | [] => ⟨99, []⟩
    | _ :: _ =>
      let timeForBallToTravel := cpos.distanceTo target / 15.0
      let ttas := players.map (interceptTTA target timeForBallToTravel)
      ⟨minOr99 ttas, ttas⟩

/-- The last-defender scan of `calculateStrategicBonus`: `offsideLineX`
starts at `±Infinity` (modelled by the `none` accumulator) and is replaced on
a strict improvement by any non-"GK" defender; the loop also remembers that
defender. -/
noncomputable def lastDefenderScan (defenders : List Player) (attackingDirection : ℝ) :
    Option (ℝ × Player) :=
  if attackingDirection < 0 then
    defenders.foldl
      (fun acc p =>
        match acc with
        | none => if p.role ≠ "GK" then some (p.pos.x, p) else none
        | some (lineX, best) =>
          if p.role ≠ "GK" ∧ p.pos.x < lineX then some (p.pos.x, p) else some (lineX, best))
      none
  else
    defenders.foldl
      (fun acc p =>
        match acc with
        | none => if p.role ≠ "GK" then some (p.pos.x, p) else none
        | some (lineX, best) =>
          if p.role ≠ "GK" ∧ p.pos.x > lineX then some (p.pos.x, p) else some (lineX, best))
      none

/-- LsCalculator.js `calculateStrategicBonus`.  The JS falsy guard
`!attackingDirection` is `attackingDirection = 0` for a real argument.  The
final `isFinite(bonus) ? bonus : 0` is the identity in the real model. -/
noncomputable def calculateStrategicBonus (lq : LQ) (goal : Goal)
    (defenders attackers : List Player) (attackingDirection : ℝ) : ℝ :=
  if defenders = [] ∨ attackers = [] ∨ attackingDirection = 0 then 0
  else
    match lastDefenderScan defenders attackingDirection with
    | none => 0
    | some (offsideLineX, _) =>
      let isBehindLine :=
        if attackingDirection < 0 then lq.center.x < offsideLineX
        else lq.center.x > offsideLineX
      if ¬ isBehindLine then 0
      else
        let attTTA := (calculateTeamControlMetrics lq.center attackers none).fastestTimeToArrival
        let defTTA := (calculateTeamControlMetrics lq.center defenders none).fastestTimeToArrival
        if defTTA ≤ attTTA then 0
        else
          let runway := lq.center.distanceTo goal.position
          0.95 * (1 / (1 + Real.exp (-(0.25) * (runway - 20))))

/-- Detail record of `calculateThreatPotential`. -/
structure ThreatDetails where
  potential : ℝ
  proximityThreat : ℝ
  strategicThreat : ℝ
  combinedProximityScore : ℝ
  goalAngleFactor : ℝ
  areaAmplifier : ℝ

/-- LsCalculator.js `calculateThreatPotential`.  The returned `potential` is
`Math.min(1.0, ...)` of the amplified value; the `isFinite` coercion inside
is the identity in the real model. -/
noncomputable def calculateThreatPotential (lq : LQ) (goal : Goal)
    (defenders attackers : List Player) (attackingDirection : ℝ) : ThreatDetails :=
  let proximityThreat :=
    1 / (1 + Real.exp (0.25 * (lq.center.distanceTo goal.position - 30)))
  let strategicThreat :=
    calculateStrategicBonus lq goal defenders attackers attackingDirection
  let combinedProximityScore := max proximityThreat strategicThreat
  let vectorToGoalCenter := Vec3.sub goal.position lq.center
  let forwardVector : Vec3 := ⟨attackingDirection, 0, 0⟩
  let offCenterAngleRad := vectorToGoalCenter.angleTo forwardVector
  let goalAngleFactor := Real.exp (-(1.2) * offCenterAngleRad)
  let areaAmplifier := 1.0 + (1 / (1 + Real.exp (-(0.04) * (lq.area - 75)))) * 0.4
  let potential := (combinedProximityScore * 0.7 + goalAngleFactor * 0.3) * areaAmplifier
  ⟨min 1.0 potential, proximityThreat, strategicThreat, combinedProximityScore,
    goalAngleFactor, areaAmplifier⟩

/-- Detail record of `calculateExploitationScore`. -/
structure ExploitDetails where
  finalScore : ℝ
  defFastestTime : ℝ
  defRecoveryScore : ℝ
  defSwarmScore : ℝ
  defensiveControl : ℝ
  attFastestTime : ℝ
  attSupportScore : ℝ
  overloadFactor : ℝ
  attackingPotential : ℝ
  speedBonus : ℝ

/-- LsCalculator.js `calculateExploitationScore(lq, defenders, attackers,
carrier)`.  Notes kept from the source:
* `calculateLs` calls this with only three arguments, so `carrier` is
  `undefined` (`none` here) on every scoring call;
* the receiver filter `p !== carrier` is JS reference inequality, modelled
  structurally (it only matters when `carrier` is `some _`);
* the inner call passes the carrier object itself as the
  `carrierPosition` argument of `calculateTeamControlMetrics`; that branch is
  dead on every `calculateLs` call (`carrier` is `undefined` there) and is
  modelled by the carrier's `mesh.position`;
* the final `isFinite` coercion is the identity in the real model. -/
noncomputable def calculateExploitationScore (lq : LQ) (defenders attackers : List Player)
    (carrier : Option Player) : ExploitDetails :=
  let defendersNearLq :=
    defenders.filter (fun p => decide (p.pos.distanceTo lq.center < 20))
  let dpair : ℝ × ℝ :=
    if 0 < defendersNearLq.length then
      let m := calculateTeamControlMetrics lq.center defendersNearLq none
      (m.fastestTimeToArrival, (m.ttas.map (fun t => Real.exp (-(0.4) * t))).sum)
    else (99, 0)
  let defFastestTime := dpair.1
  let defAggProb := dpair.2
  let defRecoveryScore := Real.exp (-(0.1) * defFastestTime)
  let defSwarmScore := 1 / (1 + defAggProb * 5)
  let defensiveControl := defRecoveryScore * 0.6 + (1 - defSwarmScore) * 0.4
  let potentialReceivers :=
    attackers.filter (fun p =>
      decide (¬ carrier = some p ∧ p.pos.distanceTo lq.center < 20))
  let apair : ℝ × ℝ × ℝ :=
    if 0 < potentialReceivers.length then
      let m := calculateTeamControlMetrics lq.center potentialReceivers
        (carrier.map Player.pos)
      let agg := (m.ttas.map (fun t => Real.exp (-(0.15) * t))).sum
      (m.fastestTimeToArrival, agg, Real.tanh (agg * 2.0))
    else (99, 0, 0)
  let attFastestTime := apair.1
  let aggAttSupport := apair.2.1
  let attSupportScore := apair.2.2
  let overloadScore := 1 / (1 + Real.exp (-(5.0) * (aggAttSupport - defAggProb)))
  let arrivalTimeAdvantage := max 0 (defFastestTime - attFastestTime)
  let speedBonus := 1 + Real.tanh (arrivalTimeAdvantage * 0.2) * 0.45
  let baseAttackingPotential := attSupportScore * 0.6 + overloadScore * 0.4
  let exploitationScore := baseAttackingPotential * (1 - defensiveControl) ^ (1 : ℕ)
  let finalScore := min 1.0 (exploitationScore * speedBonus)
  ⟨finalScore, defFastestTime, defRecoveryScore, defSwarmScore, defensiveControl,
    attFastestTime, attSupportScore, overloadScore, baseAttackingPotential, speedBonus⟩

/-- Detail record of `calculateFeasibilityScore`. -/
structure FeasyDetails where
  finalScore : ℝ
  pressureDist : Option ℝ
  pressureFactor : ℝ
  numInterceptors : ℕ
  obstructionFactor : ℝ
  passDistFactor : ℝ

/-- LsCalculator.js `calculateFeasibilityScore`.  The JS
`(pressureDist || 99)` replaces only falsy values: the distance `0` becomes
`99`, while the `Infinity` of an empty defender list (modelled `none`) is
truthy and propagates, making the logistic exactly `1` in IEEE arithmetic
(`exp(-Infinity) = 0`); the `none` branches record that value.  The reported
`pressureDist` debug field is likewise `pressureDist || 99` in the source:
`some 99` when the raw distance is `0`, `none` (= `Infinity`) for an empty
list, the raw distance otherwise. -/
noncomputable def calculateFeasibilityScore (lq : LQ) (carrier : Player)
    (defenders : List Player) : FeasyDetails :=
  let pressureDistOpt := (findClosestPlayer carrier.pos defenders).2
  let pressureFactor :=
    match pressureDistOpt with
    | none => 1
    | some d => 1 / (1 + Real.exp (-(1.5) * ((if d = 0 then 99 else d) - 3.0)))
  let conePoints := (getPassingCone carrier.pos lq.corners).1
  let numInterceptors :=
    defenders.countP (fun p => isPointInTriangleSpread p.pos conePoints)
  let obstructionFactor := Real.exp (-(0.3) * (numInterceptors : ℝ))
  let passDistFactor := Real.exp (-(0.03) * carrier.pos.distanceTo lq.center)
  let finalScore := obstructionFactor * 0.45 + pressureFactor * 0.3 + passDistFactor * 0.25
  let reportedPressureDist :=
    match pressureDistOpt with
    | none => none
    | some d => some (if d = 0 then 99 else d)
  ⟨finalScore, reportedPressureDist, pressureFactor, numInterceptors, obstructionFactor,
    passDistFactor⟩

/-- The `final` block of the result of `calculateLs`. -/
structure LsFinal where
  situationValue : ℝ
  raw_ls : ℝ

/-- The `details` block of the result of `calculateLs`. -/
structure LsDetails where
  threat : ThreatDetails
  exploit : ExploitDetails
  feasy : FeasyDetails
  final : LsFinal

/-- Result record of `calculateLs`. -/
structure LsResult where
  final_ls : ℝ
  threatPotentialScore : ℝ
  exploitationScore : ℝ
  feasibilityScore : ℝ
  details : LsDetails

/-- LsCalculator.js `calculateLs`.  Note that the source calls
`calculateExploitationScore(lq, defenders, attackers)` with three arguments,
leaving its `carrier` parameter `undefined` (`none`).  The final
`isFinite(final_ls) ? final_ls : 0` guard is the identity in the real
model (the logistic of a real is always finite). -/
noncomputable def calculateLs (lq : LQ) (carrier : Player)
    (defenders attackers : List Player) (goal : Goal) (attackingDirection : ℝ) : LsResult :=
  let threatDetails := calculateThreatPotential lq goal defenders attackers attackingDirection
  let exploitDetails := calculateExploitationScore lq defenders attackers none
  let feasyDetails := calculateFeasibilityScore lq carrier defenders
  let threatPotentialScore := threatDetails.potential
  let exploitationScore := exploitDetails.finalScore
  let feasibilityScore := feasyDetails.finalScore
  let productValue := threatPotentialScore * exploitationScore
  let averageValue := (threatPotentialScore + exploitationScore) / 2
  let situationValue := 0.4 * productValue + (1 - 0.4) * averageValue
  let raw_ls := situationValue * (0.5 + 0.5 * feasibilityScore)
  let final_ls := 1 / (1 + Real.exp (-(10.0) * (raw_ls - 0.5)))
  ⟨final_ls, threatPotentialScore, exploitationScore, feasibilityScore,
    ⟨threatDetails, exploitDetails, feasyDetails, ⟨situationValue, raw_ls⟩⟩⟩

/-! FeatureCalculator.js fragment.  This module reads only `mesh.position.x`,
`mesh.position.z` and `playerData.role` and uses only field operations and
comparisons, so its players and numbers are modelled over `ℚ`. -/

/-- A player as read by FeatureCalculator.js. -/
structure PlayerF where
  x : ℚ
  z : ℚ
  role : String
deriving DecidableEq

/-- Stable insertion step for `[...defenders].sort((a, b) => distA - distB)`
with `dist` the distance `|x - goalX|` to the own goal (ECMAScript sort is
stable; insertion sort with `≤` on the keys is the matching stable ascending
sort). -/
def insertByGoalDist (goalX : ℚ) (v : PlayerF) : List PlayerF → List PlayerF
  | [] => [v]
  | w :: ws =>
    if |v.x - goalX| ≤ |w.x - goalX| then v :: w :: ws
    else w :: insertByGoalDist goalX v ws

/-- Stable ascending sort by `|x - goalX|`. -/
def sortByGoalDist (goalX : ℚ) : List PlayerF → List PlayerF
  | [] => []
  | v :: vs => insertByGoalDist goalX v (sortByGoalDist goalX vs)

/-- Return record of `getDefensiveLineMetrics`. -/
structure DLMetrics where
  line_depth : ℚ
  line_players : List PlayerF
deriving DecidableEq

/-- FeatureCalculator.js `getDefensiveLineMetrics(defenders,
attackingDirection)`: sort all the given defenders by distance to the goal at
`attackingDirection * 52.5`, take the first 4, and return their mean `x`.
The source contains no role filter (its comment says "the 4 deepest outfield
players", but a goalkeeper in `defenders` participates like any other
player). -/
def getDefensiveLineMetrics (defenders : List PlayerF) (attackingDirection : ℚ) :
    DLMetrics :=
  if defenders = [] then ⟨0, []⟩
  else
    let goalX := attackingDirection * 52.5
    let sortedDefenders := sortByGoalDist goalX defenders
    let linePlayers := sortedDefenders.take 4
    if linePlayers = [] then ⟨0, []⟩
    else ⟨((linePlayers.map (fun p => p.x)).sum) / (linePlayers.length : ℚ), linePlayers⟩

/-- Follows the words of claim C5 (not the source), for comparison with
`getDefensiveLineMetrics`: the mean x-position of the 4 outfield
(non-goalkeeper) defenders deepest relative to their own goal, obtained by
sorting the non-"GK" defenders by distance to their own goal ascending and
taking the first 4. -/
def claimDefensiveLineDepth (defenders : List PlayerF) (attackingDirection : ℚ) : ℚ :=
  let goalX := attackingDirection * 52.5
  let outfield := defenders.filter (fun p => decide (¬ p.role = "GK"))
  let linePlayers := (sortByGoalDist goalX outfield).take 4
  if linePlayers = [] then 0
  else ((linePlayers.map (fun p => p.x)).sum) / (linePlayers.length : ℚ)

/-! PlaybackBuffer.js and PlayerManager.js fragment.  Frame timestamps and
raw sample coordinates are modelled over `ℚ` (this layer uses only field
operations and comparisons). -/

/-- A per-frame entity sample `{id, name, ..., x, y}` as read by
`updateWithInterpolation` (`team`/`role` are not read by the modelled
logic). -/
structure Sample where
  id : String
  name : String
  x : ℚ
  y : ℚ
deriving DecidableEq

/-- A buffered frame: a list of samples plus its `videoTime` timestamp. -/
structure Frame where
  videoTime : ℚ
  players : List Sample
deriving DecidableEq

/-- PlaybackBuffer.js `findFramesForInterpolation(playbackClock)` over the
buffer's frame list.  `findIndex(frame => frame.videoTime >= playbackClock)`
is `findIdx?` of the first frame at or after the clock.  The `none` fallbacks
in the index arithmetic are unreachable for `frames.length ≥ 2`. -/
def findFramesForInterpolation (frames : List Frame) (playbackClock : ℚ) :
    Option (Frame × Frame) :=
  if frames.length < 2 then none
  else
    match frames.findIdx? (fun f => decide (playbackClock ≤ f.videoTime)) with
    | none =>
      match frames.getLast? with
      | some l => some (l, l)
      | none => none
    | some 0 =>
      match frames.head? with
      | some f => some (f, f)
      | none => none
    | some (i + 1) =>
      match frames[i]?, frames[i + 1]? with
      | some p, some n => some (p, n)
      | _, _ => none

/-- The scan loop of `findNextAppearance`: walk the frames in order, stop
(`break`) at the first frame past `endTime`, return the first sample with the
wanted id together with its frame time. -/
def scanAppearance (playerId : String) (endTime : ℚ) : List Frame → Option (Sample × ℚ)
  | [] => none
  | f :: fs =>
    if endTime < f.videoTime then none
    else
      match f.players.find? (fun p => decide (p.id = playerId)) with
      | some s => some (s, f.videoTime)
      | none => scanAppearance playerId endTime fs

/-- PlaybackBuffer.js `findNextAppearance(playerId, afterTime)`: start at the
first frame strictly after `afterTime` and scan forward within the 600000 ms
grace period. -/
def findNextAppearance (frames : List Frame) (playerId : String) (afterTime : ℚ) :
    Option (Sample × ℚ) :=
  match frames.findIdx? (fun f => decide (afterTime < f.videoTime)) with
  | none => none
  | some startIndex => scanAppearance playerId (afterTime + 600000) (frames.drop startIndex)

/-- The per-entity state of a `Player` object (the `Player` class of
part_004, lines 1048-1260) as far as `updateWithInterpolation` reads and
writes it: the mesh position, the smoothing target `targetRoot`, the
`isInferred` flag and the constructor-stored `playerData` sample.  The
purely visual fields (labels, highlights, track lines, colors) and the
separate per-tick smoothing pass `smooth` (which moves `mesh.position`
toward `targetRoot`) are outside the modelled update: within one
`updateWithInterpolation` call the mesh position is only read, never
written. -/
structure PState where
  meshPos : ℚ × ℚ × ℚ
  targetRoot : ℚ × ℚ × ℚ
  isInferred : Bool
  playerData : Sample
deriving DecidableEq

/-- The `Player` constructor's state for a fresh sample (part_004 lines
1071-1088 and 1137-1138): the mesh is created at the scene origin and only
its height is set - y = 0.22 for the ball, y = 1.8 / 2 = 0.9 for a player -
and `targetRoot` starts as a copy of `mesh.position`; `isInferred` starts
false. -/
def mkPlayer (s : Sample) : PState :=
  let y0 : ℚ := if s.name = "Ball" then 22 / 100 else 9 / 10
  ⟨(0, y0, 0), (0, y0, 0), false, s⟩

/-- `Player.updateTarget(targetPosition)` (part_004 lines 1161-1171): set
`targetRoot` from the target's x and z, keeping the mesh's current y; the
mesh itself does not move here (the color branch is visual only). -/
def updateTarget (p : PState) (t : ℚ × ℚ × ℚ) : PState :=
  ⟨p.meshPos, (t.1, p.meshPos.2.1, t.2.2), p.isInferred, p.playerData⟩

/-- `Player.setInferred(isInferred)` (part_004 lines 1152-1159): write the
flag (the early return only skips a redundant write and the opacity change
is visual only). -/
def setInferred (p : PState) (b : Bool) : PState :=
  ⟨p.meshPos, p.targetRoot, b, p.playerData⟩

/-- The gap-interpolation record stored in `this.gapStates`. -/
structure GapState where
  startPos : ℚ × ℚ × ℚ
  endPos : ℚ × ℚ × ℚ
  startTime : ℚ
  endTime : ℚ
deriving DecidableEq

/-- PlayerManager state: the `playerMap` and `gapStates` maps, as insertion
ordered association lists (JS `Map` preserves insertion order). -/
structure ManagerState where
  playerMap : List (String × PState)
  gapStates : List (String × GapState)
deriving DecidableEq

/-- JS `Map.get`. -/
def alookup {β : Type} (m : List (String × β)) (k : String) : Option β :=
  (m.find? (fun e => decide (e.1 = k))).map (fun e => e.2)

/-- JS `Map.set`: overwrite in place if the key exists, else append. -/
def aset {β : Type} (m : List (String × β)) (k : String) (v : β) : List (String × β) :=
  if (m.find? (fun e => decide (e.1 = k))).isSome then
    m.map (fun e => if e.1 = k then (k, v) else e)
  else m ++ [(k, v)]

/-- JS `Map.delete`. -/
def adel {β : Type} (m : List (String × β)) (k : String) : List (String × β) :=
  m.filter (fun e => decide (¬ e.1 = k))

/-- Scene position of a raw sample: `(x / 100, 0, y / 100)` as in
`interpolatedPosition.set(targetX / 100.0, 0, targetY / 100.0)`. -/
def scaledPos (s : Sample) : ℚ × ℚ × ℚ := (s.x / 100, 0, s.y / 100)

/-- The loop body of `updateWithInterpolation` for one id of `allKnownIds`,
threading the manager state.  Mirrors PlayerManager.js lines 89-184:
create-on-demand, Case 1 (visible in the window: clear gap, live
interpolation between `prevData` and `nextData`, falling back to `nextData`
for the start when `prevData` is absent), Case 2 (absent: open a gap via
`findNextAppearance` if none is stored, then either finish the gap at its
end position or lerp inside it, else just mark inferred). -/
def updateEntity (buffer : List Frame) (prev next : Frame) (alpha currentTime : ℚ)
    (st : ManagerState) (id : String) : ManagerState :=
  let prevData := prev.players.find? (fun p => decide (p.id = id))
  let nextData := next.players.find? (fun p => decide (p.id = id))
  let playerDataOpt :=
    nextData <|> prevData <|> ((alookup st.playerMap id).map (fun q => q.playerData))
  match playerDataOpt with
  | none => st
  | some playerData =>
    let st1 :=
      if (alookup st.playerMap id).isSome then st
      else { st with playerMap := aset st.playerMap id (mkPlayer playerData) }
    let player := (alookup st1.playerMap id).getD (mkPlayer playerData)
    match nextData with
    | some nd =>
      let startX := match prevData with | some pd => pd.x | none => nd.x
      let startY := match prevData with | some pd => pd.y | none => nd.y
      let targetX := startX + (nd.x - startX) * alpha
      let targetY := startY + (nd.y - startY) * alpha
      let newP := updateTarget (setInferred player false) (targetX / 100, 0, targetY / 100)
      ⟨aset st1.playerMap id newP, adel st1.gapStates id⟩
    | none =>
      let st2 :=
        if (alookup st1.gapStates id).isSome then st1
        else
          match findNextAppearance buffer id next.videoTime with
          | none => st1
          | some (futSample, futTime) =>
            let lastKnownData := prevData.getD player.playerData
            let gap : GapState :=
              ⟨scaledPos lastKnownData, scaledPos futSample, next.videoTime, futTime⟩
            { st1 with gapStates := aset st1.gapStates id gap }
      match alookup st2.gapStates id with
      | some gapSt =>
        if gapSt.endTime ≤ currentTime then
          let newP := setInferred (updateTarget (setInferred player true) gapSt.endPos) false
          ⟨aset st2.playerMap id newP, adel st2.gapStates id⟩
        else
          let gapDuration := gapSt.endTime - gapSt.startTime
          let timeIntoGap := currentTime - gapSt.startTime
          let gapAlpha := max 0 (min 1 (timeIntoGap / gapDuration))
          let lerped : ℚ × ℚ × ℚ :=
            (gapSt.startPos.1 + (gapSt.endPos.1 - gapSt.startPos.1) * gapAlpha,
             gapSt.startPos.2.1 + (gapSt.endPos.2.1 - gapSt.startPos.2.1) * gapAlpha,
             gapSt.startPos.2.2 + (gapSt.endPos.2.2 - gapSt.startPos.2.2) * gapAlpha)
          let newP := updateTarget (setInferred player true) lerped
          { st2 with playerMap := aset st2.playerMap id newP }
      | none =>
        { st2 with playerMap := aset st2.playerMap id (setInferred player true) }

/-- PlayerManager.js `updateWithInterpolation(prevFrame, nextFrame, alpha,
buffer)`.  The both-frames-empty early exit marks every known player
inferred; otherwise the ids of `this.playerMap` followed by the new ids of
`nextFrame` (JS `Set` insertion order, deduplicated) are processed in
order. -/
def updateWithInterpolation (st : ManagerState) (prev next : Frame) (alpha : ℚ)
    (buffer : List Frame) : ManagerState :=
  if prev.players = [] ∧ next.players = [] then
    { st with playerMap := st.playerMap.map (fun e => (e.1, setInferred e.2 true)) }
  else
    let currentTime := prev.videoTime + (next.videoTime - prev.videoTime) * alpha
    let allKnownIds :=
      next.players.foldl
        (fun acc p => if p.id ∈ acc then acc else acc ++ [p.id])
        (st.playerMap.map (fun e => e.1))
    allKnownIds.foldl (updateEntity buffer prev next alpha currentTime) st

/-- The per-tick driver step of main.js lines 537-552: locate the
interpolation window for the playback clock, derive `interpAlpha`, and run
`updateWithInterpolation`. -/
def driverStep (st : ManagerState) (buffer : List Frame) (playbackClock : ℚ) :
    ManagerState :=
  match findFramesForInterpolation buffer playbackClock with
  | none => st
  | some (prev, next) =>
    let frameDuration := next.videoTime - prev.videoTime
    let interpAlpha :=
      if 0 < frameDuration then (playbackClock - prev.videoTime) / frameDuration else 0
    updateWithInterpolation st prev next interpAlpha buffer

/-- The per-player TTA function selected by the third argument of
`calculateTeamControlMetrics` (used to state characterization lemmas). -/
noncomputable def ttaOf (target : Vec3) (carrierPosition : Option Vec3) : Player → ℝ :=
  match carrierPosition with
  | none => noCarrierTTA target
  | some cpos => interceptTTA target (cpos.distanceTo target / 15.0)

/-- Running minimum of a list continued from an optional seed (the
accumulator shape shared by the `Infinity`-seeded scan loops of the
source). -/
noncomputable def ominList (a : Option ℝ) (xs : List ℝ) : Option ℝ :=
  xs.foldl
    (fun acc x =>
      match acc with
      | none => some x
      | some m => some (min m x))
    a

/-- Running maximum of a list continued from an optional seed. -/
noncomputable def omaxList (a : Option ℝ) (xs : List ℝ) : Option ℝ :=
  xs.foldl
    (fun acc x =>
      match acc with
      | none => some x
      | some m => some (max m x))
    a

/-! Concrete instances used by the witness and counterexample theorems. -/

/-- The origin point. -/
noncomputable def vOrigin : Vec3 := ⟨0, 0, 0⟩

/-- A test point away from the origin. -/
noncomputable def pFarPoint : Vec3 := ⟨5, 0, 5⟩

/-- A 10x10 LQ centred at the origin. -/
noncomputable def lqAtOrigin : LQ :=
  ⟨⟨0, 0, 0⟩, [⟨-5, 0, -5⟩, ⟨5, 0, -5⟩, ⟨5, 0, 5⟩, ⟨-5, 0, 5⟩], 100⟩

/-- A stationary carrier standing at the origin. -/
noncomputable def carrierAtOrigin : Player := ⟨⟨0, 0, 0⟩, ⟨0, 0, 0⟩, 0, "ST"⟩

/-- A defender standing exactly on the carrier (distance 0). -/
noncomputable def defenderAtOrigin : Player := ⟨⟨0, 0, 0⟩, ⟨0, 0, 0⟩, 0, "CB"⟩

/-- A defender 3 units from the origin along x. -/
noncomputable def defenderAt3 : Player := ⟨⟨3, 0, 0⟩, ⟨0, 0, 0⟩, 0, "CB"⟩

/-- The right-hand goal (pitch half-length 52.5). -/
noncomputable def goalAt52 : Goal := ⟨⟨52.5, 0, 0⟩⟩

/-- A goalkeeper deepest relative to the own goal at x = -52.5. -/
def gkDeep : PlayerF := ⟨-52, 0, "GK"⟩

/-- Outfield back-line defenders. -/
def cbA : PlayerF := ⟨-40, 2, "CB"⟩

/-- Outfield back-line defender. -/
def cbB : PlayerF := ⟨-38, -3, "CB"⟩

/-- Outfield back-line defender. -/
def cbC : PlayerF := ⟨-36, 6, "CB"⟩

/-- Outfield back-line defender. -/
def cbD : PlayerF := ⟨-34, -6, "CB"⟩

/-- A defending team whose goalkeeper is the deepest player. -/
def backlineWithGK : List PlayerF := [gkDeep, cbA, cbB, cbC, cbD]

/-- A sample for the 3-frame playback-buffer scenario. -/
def sampA : Sample := ⟨"a", "A", 10, 20⟩

/-- Frame at t = 0. -/
def frameT0 : Frame := ⟨0, [sampA]⟩

/-- Frame at t = 100. -/
def frameT100 : Frame := ⟨100, [sampA]⟩

/-- Frame at t = 200. -/
def frameT200 : Frame := ⟨200, [sampA]⟩

/-- The 3-frame buffer at t = 0, 100, 200. -/
def bufThree : List Frame := [frameT0, frameT100, frameT200]

/-- Gap scenario: entity p1 at (0, 0) at t = 0. -/
def sampP1T0 : Sample := ⟨"p1", "P1", 0, 0⟩

/-- Gap scenario: entity p1 reappears at raw (100, 100) at t = 300. -/
def sampP1T300 : Sample := ⟨"p1", "P1", 100, 100⟩

/-- Gap scenario: an always-present companion entity (keeps every frame
nonempty, as the frame invariant requires). -/
def sampQ : Sample := ⟨"q", "Q", 50, 50⟩

/-- Gap scenario frame at t = 0: p1 present. -/
def gapFrame0 : Frame := ⟨0, [sampP1T0, sampQ]⟩

/-- Gap scenario frame at t = 100: p1 absent. -/
def gapFrame100 : Frame := ⟨100, [sampQ]⟩

/-- Gap scenario frame at t = 300: p1 back at a known position. -/
def gapFrame300 : Frame := ⟨300, [sampP1T300, sampQ]⟩

/-- The gap-scenario buffer. -/
def gapBuffer : List Frame := [gapFrame0, gapFrame100, gapFrame300]

/-- Manager state after driver ticks at playback times 0 and 100. -/
def gapRun100 : ManagerState := driverStep (driverStep ⟨[], []⟩ gapBuffer 0) gapBuffer 100

/-- Manager state after a further driver tick at playback time 200. -/
def gapRun200 : ManagerState := driverStep gapRun100 gapBuffer 200

/-! Helper lemmas about the list scans of the source (running minima and
maxima seeded at `Infinity`/`-Infinity`) and about permutation invariance of
the aggregate quantities the scoring engine extracts from its player
lists. -/

theorem ominList_some (m : ℝ) (xs : List ℝ) : ominList (some m) xs = some (xs.foldl min m) := by
  induction xs generalizing m with
  | nil => rfl
  | cons x xs ih => exact ih (min m x)

theorem ominList_none_eq (xs : List ℝ) : ominList none xs = xs.min? := by
  cases xs with
  | nil => rfl
  | cons x xs =>
    show ominList (some x) xs = _
    rw [ominList_some, List.min?_cons']

theorem omaxList_some (m : ℝ) (xs : List ℝ) : omaxList (some m) xs = some (xs.foldl max m) := by
  induction xs generalizing m with
  | nil => rfl
  | cons x xs ih => exact ih (max m x)

theorem omaxList_none_eq (xs : List ℝ) : omaxList none xs = xs.max? := by
  cases xs with
  | nil => rfl
  | cons x xs =>
    show omaxList (some x) xs = _
    rw [omaxList_some, List.max?_cons']

theorem minOpt_perm {l l2 : List ℝ} (h : l.Perm l2) : l.min? = l2.min? := by
  haveI : Std.Antisymm ((· : ℝ) ≤ ·) := ⟨@le_antisymm ℝ _⟩
  cases h2 : l2.min? with
  | none =>
    rw [List.min?_eq_none_iff] at h2 ⊢
    exact List.Perm.eq_nil (h2 ▸ h)
  | some m =>
    rw [List.min?_eq_some_iff (fun a => le_refl a) (fun a b => min_choice a b)
      (fun a b c => le_min_iff)] at h2 ⊢
    exact ⟨h.mem_iff.mpr h2.1, fun b hb => h2.2 b (h.mem_iff.mp hb)⟩

theorem maxOpt_perm {l l2 : List ℝ} (h : l.Perm l2) : l.max? = l2.max? := by
  haveI : Std.Antisymm ((· : ℝ) ≤ ·) := ⟨@le_antisymm ℝ _⟩
  cases h2 : l2.max? with
  | none =>
    rw [List.max?_eq_none_iff] at h2 ⊢
    exact List.Perm.eq_nil (h2 ▸ h)
  | some m =>
    rw [List.max?_eq_some_iff (fun a => le_refl a) (fun a b => max_choice a b)
      (fun a b c => max_le_iff)] at h2 ⊢
    exact ⟨h.mem_iff.mpr h2.1, fun b hb => h2.2 b (h.mem_iff.mp hb)⟩

theorem minOr99_perm {l l2 : List ℝ} (h : l.Perm l2) : minOr99 l = minOr99 l2 := by
  unfold minOr99
  rw [minOpt_perm h]

theorem TCM_fastest_eq (target : Vec3) (l : List Player) (c : Option Vec3) :
    (calculateTeamControlMetrics target l c).fastestTimeToArrival
      = minOr99 (l.map (ttaOf target c)) := by
  cases c <;> cases l <;> rfl

theorem TCM_ttas_eq (target : Vec3) (l : List Player) (c : Option Vec3) :
    (calculateTeamControlMetrics target l c).ttas = l.map (ttaOf target c) := by
  cases c <;> cases l <;> rfl

theorem TCM_fastest_perm (target : Vec3) (c : Option Vec3) {l l2 : List Player}
    (h : l.Perm l2) :
    (calculateTeamControlMetrics target l c).fastestTimeToArrival
      = (calculateTeamControlMetrics target l2 c).fastestTimeToArrival := by
  rw [TCM_fastest_eq, TCM_fastest_eq]
  exact minOr99_perm (h.map _)

theorem findClosestPlayer_key (t : Vec3) (l : List Player) (acc : Option Player × Option ℝ) :
    (l.foldl
      (fun acc p =>
        let d := p.pos.distanceTo t
        match acc.2 with
        | none => (some p, some d)
        | some m => if d < m then (some p, some d) else acc)
      acc).2
      = ominList acc.2 (l.map (fun p => p.pos.distanceTo t)) := by
  induction l generalizing acc with
  | nil => rfl
  | cons p ps ih =>
    rw [List.foldl_cons, ih, List.map_cons]
    have hstep :
        ominList acc.2
            (p.pos.distanceTo t :: List.map (fun p => p.pos.distanceTo t) ps)
          = ominList
              (match acc.2 with
                | none => some (p.pos.distanceTo t)
                | some m => some (min m (p.pos.distanceTo t)))
              (List.map (fun p => p.pos.distanceTo t) ps) := rfl
    rw [hstep]
    congr 1
    rcases acc with ⟨a1, a2⟩
    cases a2 with
    | none => rfl
    | some m =>
      show (if p.pos.distanceTo t < m then _ else (a1, some m)).2 = some (min m _)
      split_ifs with hlt
      · exact congrArg some (min_eq_right (le_of_lt hlt)).symm
      · exact congrArg some (min_eq_left (le_of_not_lt hlt)).symm

theorem findClosestPlayer_snd (t : Vec3) (l : List Player) :
    (findClosestPlayer t l).2 = (l.map (fun p => p.pos.distanceTo t)).min? := by
  rw [← ominList_none_eq]
  exact findClosestPlayer_key t l (none, none)

theorem lastDefScan_key_neg (l : List Player) (acc : Option (ℝ × Player)) :
    (l.foldl
      (fun acc p =>
        match acc with
        | none => if p.role ≠ "GK" then some (p.pos.x, p) else none
        | some (lineX, best) =>
          if p.role ≠ "GK" ∧ p.pos.x < lineX then some (p.pos.x, p) else some (lineX, best))
      acc).map Prod.fst
      = ominList (acc.map Prod.fst)
          ((l.filter (fun p => decide (¬ p.role = "GK"))).map (fun p => p.pos.x)) := by
  induction l generalizing acc with
  | nil => rfl
  | cons p ps ih =>
    rw [List.foldl_cons, ih]
    by_cases hp : p.role = "GK"
    · have hf : (p :: ps).filter (fun p => decide (¬ p.role = "GK"))
          = ps.filter (fun p => decide (¬ p.role = "GK")) := by
        simp [List.filter_cons, hp]
      rw [hf]
      congr 1
      rcases acc with _ | ⟨x, b⟩
      · simp [hp]
      · simp [hp]
    · have hf : (p :: ps).filter (fun p => decide (¬ p.role = "GK"))
          = p :: ps.filter (fun p => decide (¬ p.role = "GK")) := by
        simp [List.filter_cons, hp]
      rw [hf, List.map_cons]
      have hstep :
          ominList (acc.map Prod.fst)
              (p.pos.x :: (ps.filter (fun p => decide (¬ p.role = "GK"))).map
                (fun p => p.pos.x))
            = ominList
                (match acc.map Prod.fst with
                  | none => some p.pos.x
                  | some m => some (min m p.pos.x))
                ((ps.filter (fun p => decide (¬ p.role = "GK"))).map
                  (fun p => p.pos.x)) := rfl
      rw [hstep]
      congr 1
      rcases acc with _ | ⟨x, b⟩
      · simp [hp]
      · show Option.map Prod.fst
            (if ¬ p.role = "GK" ∧ p.pos.x < x then some (p.pos.x, p) else some (x, b))
            = some (min x p.pos.x)
        split_ifs with hcond
        · simp only [Option.map_some']
          exact congrArg some (min_eq_right (le_of_lt hcond.2)).symm
        · have hxlt : ¬ p.pos.x < x := fun h => hcond ⟨hp, h⟩
          simp only [Option.map_some']
          exact congrArg some (min_eq_left (le_of_not_lt hxlt)).symm

theorem lastDefScan_key_pos (l : List Player) (acc : Option (ℝ × Player)) :
    (l.foldl
      (fun acc p =>
        match acc with
        | none => if p.role ≠ "GK" then some (p.pos.x, p) else none
        | some (lineX, best) =>
          if p.role ≠ "GK" ∧ p.pos.x > lineX then some (p.pos.x, p) else some (lineX, best))
      acc).map Prod.fst
      = omaxList (acc.map Prod.fst)
          ((l.filter (fun p => decide (¬ p.role = "GK"))).map (fun p => p.pos.x)) := by
  induction l generalizing acc with
  | nil => rfl
  | cons p ps ih =>
    rw [List.foldl_cons, ih]
    by_cases hp : p.role = "GK"
    · have hf : (p :: ps).filter (fun p => decide (¬ p.role = "GK"))
          = ps.filter (fun p => decide (¬ p.role = "GK")) := by
        simp [List.filter_cons, hp]
      rw [hf]
      congr 1
      rcases acc with _ | ⟨x, b⟩
      · simp [hp]
      · simp [hp]
    · have hf : (p :: ps).filter (fun p => decide (¬ p.role = "GK"))
          = p :: ps.filter (fun p => decide (¬ p.role = "GK")) := by
        simp [List.filter_cons, hp]
      rw [hf, List.map_cons]
      have hstep :
          omaxList (acc.map Prod.fst)
              (p.pos.x :: (ps.filter (fun p => decide (¬ p.role = "GK"))).map
                (fun p => p.pos.x))
            = omaxList
                (match acc.map Prod.fst with
                  | none => some p.pos.x
                  | some m => some (max m p.pos.x))
                ((ps.filter (fun p => decide (¬ p.role = "GK"))).map
                  (fun p => p.pos.x)) := rfl
      rw [hstep]
      congr 1
      rcases acc with _ | ⟨x, b⟩
      · simp [hp]
      · show Option.map Prod.fst
            (if ¬ p.role = "GK" ∧ p.pos.x > x then some (p.pos.x, p) else some (x, b))
            = some (max x p.pos.x)
        split_ifs with hcond
        · simp only [Option.map_some']
          exact congrArg some (max_eq_right (le_of_lt hcond.2)).symm
        · have hxlt : ¬ p.pos.x > x := fun h => hcond ⟨hp, h⟩
          simp only [Option.map_some']
          exact congrArg some (max_eq_left (le_of_not_lt hxlt)).symm

theorem lastDefenderScan_fst (l : List Player) (dir : ℝ) :
    (lastDefenderScan l dir).map Prod.fst
      = if dir < 0 then
          ((l.filter (fun p => decide (¬ p.role = "GK"))).map (fun p => p.pos.x)).min?
        else
          ((l.filter (fun p => decide (¬ p.role = "GK"))).map (fun p => p.pos.x)).max? := by
  unfold lastDefenderScan
  split_ifs with hdir
  · rw [lastDefScan_key_neg]
    exact ominList_none_eq _
  · rw [lastDefScan_key_pos]
    exact omaxList_none_eq _

theorem strategicBonus_perm (lq : LQ) (goal : Goal) (dir : ℝ)
    {d d2 a a2 : List Player} (hd : d.Perm d2) (ha : a.Perm a2) :
    calculateStrategicBonus lq goal d a dir = calculateStrategicBonus lq goal d2 a2 dir := by
  have hdnil : (d = []) ↔ (d2 = []) := by
    rw [← List.length_eq_zero, ← List.length_eq_zero, hd.length_eq]
  have hanil : (a = []) ↔ (a2 = []) := by
    rw [← List.length_eq_zero, ← List.length_eq_zero, ha.length_eq]
  have hfsteq : (lastDefenderScan d dir).map Prod.fst
      = (lastDefenderScan d2 dir).map Prod.fst := by
    rw [lastDefenderScan_fst, lastDefenderScan_fst]
    have hperm := (hd.filter (fun p => decide (¬ p.role = "GK"))).map (fun p => p.pos.x)
    split_ifs with h
    · exact minOpt_perm hperm
    · exact maxOpt_perm hperm
  unfold calculateStrategicBonus
  by_cases hguard : d = [] ∨ a = [] ∨ dir = 0
  · have hguard2 : d2 = [] ∨ a2 = [] ∨ dir = 0 := by
      rcases hguard with h | h | h
      · exact Or.inl (hdnil.mp h)
      · exact Or.inr (Or.inl (hanil.mp h))
      · exact Or.inr (Or.inr h)
    rw [if_pos hguard, if_pos hguard2]
  · have hguard2 : ¬ (d2 = [] ∨ a2 = [] ∨ dir = 0) := by
      intro h
      refine hguard ?_
      rcases h with h | h | h
      · exact Or.inl (hdnil.mpr h)
      · exact Or.inr (Or.inl (hanil.mpr h))
      · exact Or.inr (Or.inr h)
    rw [if_neg hguard, if_neg hguard2]
    rcases h1 : lastDefenderScan d dir with _ | ⟨x, pl⟩ <;>
      rcases h2 : lastDefenderScan d2 dir with _ | ⟨x2, pl2⟩
    · rfl
    · rw [h1, h2] at hfsteq
      simp at hfsteq
    · rw [h1, h2] at hfsteq
      simp at hfsteq
    · rw [h1, h2] at hfsteq
      simp only [Option.map_some'] at hfsteq
      have hx : x = x2 := by simpa using hfsteq
      subst hx
      dsimp only
      rw [TCM_fastest_perm lq.center none hd, TCM_fastest_perm lq.center none ha]

theorem threatPotential_perm (lq : LQ) (goal : Goal) (dir : ℝ)
    {d d2 a a2 : List Player} (hd : d.Perm d2) (ha : a.Perm a2) :
    calculateThreatPotential lq goal d a dir = calculateThreatPotential lq goal d2 a2 dir := by
  unfold calculateThreatPotential
  rw [strategicBonus_perm lq goal dir hd ha]

theorem exploitation_perm (lq : LQ) (carrier : Option Player)
    {d d2 a a2 : List Player} (hd : d.Perm d2) (ha : a.Perm a2) :
    calculateExploitationScore lq d a carrier = calculateExploitationScore lq d2 a2 carrier := by
  have hdnear := hd.filter (fun p => decide (p.pos.distanceTo lq.center < 20))
  have hanear := ha.filter
    (fun p => decide (¬ carrier = some p ∧ p.pos.distanceTo lq.center < 20))
  simp only [calculateExploitationScore]
  rw [TCM_fastest_eq, TCM_fastest_eq, TCM_fastest_eq, TCM_fastest_eq,
    TCM_ttas_eq, TCM_ttas_eq, TCM_ttas_eq, TCM_ttas_eq,
    hdnear.length_eq, hanear.length_eq,
    minOr99_perm (hdnear.map (ttaOf lq.center none)),
    minOr99_perm (hanear.map (ttaOf lq.center (carrier.map Player.pos))),
    ((hdnear.map (ttaOf lq.center none)).map
      (fun t => Real.exp (-(0.4) * t))).sum_eq,
    ((hanear.map (ttaOf lq.center (carrier.map Player.pos))).map
      (fun t => Real.exp (-(0.15) * t))).sum_eq]

theorem feasibility_perm (lq : LQ) (carrier : Player)
    {d d2 : List Player} (hd : d.Perm d2) :
    calculateFeasibilityScore lq carrier d = calculateFeasibilityScore lq carrier d2 := by
  simp only [calculateFeasibilityScore]
  rw [findClosestPlayer_snd, findClosestPlayer_snd,
    minOpt_perm (hd.map (fun p => p.pos.distanceTo carrier.pos)),
    hd.countP_eq]

theorem logistic_nonneg_le_one (x : ℝ) :
    0 ≤ 1 / (1 + Real.exp x) ∧ 1 / (1 + Real.exp x) ≤ 1 := by
  have hpos : 0 < 1 + Real.exp x := by positivity
  constructor
  · positivity
  · rw [div_le_one hpos]
    have := (Real.exp_pos x).le
    linarith

/-- C2: for every valid LQ, carrier, goal, attacking direction and finite
player configuration, the final leakage score lies in [0, 1], and it is
unchanged under every permutation of the defenders list and every
permutation of the attackers list. -/
theorem C2_final_ls_bounds_and_permutation_invariance (lq : LQ) (carrier : Player)
    (goal : Goal) (dir : ℝ) {defenders defenders2 attackers attackers2 : List Player}
    (hd : defenders.Perm defenders2) (ha : attackers.Perm attackers2) :
    (0 ≤ (calculateLs lq carrier defenders attackers goal dir).final_ls
      ∧ (calculateLs lq carrier defenders attackers goal dir).final_ls ≤ 1)
    ∧ (calculateLs lq carrier defenders attackers goal dir).final_ls
        = (calculateLs lq carrier defenders2 attackers2 goal dir).final_ls := by
  constructor
  · exact logistic_nonneg_le_one _
  · simp only [calculateLs]
    rw [threatPotential_perm lq goal dir hd ha, exploitation_perm lq none hd ha,
      feasibility_perm lq carrier hd]

/-- C2 witness: concrete instantiation at a two-defender, two-attacker
configuration with both lists swapped. -/
theorem C2_witness :
    (0 ≤ (calculateLs ⟨⟨20, 0, 0⟩, [⟨15, 0, -5⟩, ⟨25, 0, -5⟩, ⟨25, 0, 5⟩, ⟨15, 0, 5⟩], 100⟩
        ⟨⟨0, 0, 0⟩, ⟨0, 0, 0⟩, 0, "ST"⟩
        [⟨⟨25, 0, 0⟩, ⟨0, 0, 0⟩, 5, "CB"⟩, ⟨⟨30, 0, 2⟩, ⟨0, 0, 0⟩, 4, "GK"⟩]
        [⟨⟨15, 0, 5⟩, ⟨0, 0, 0⟩, 6, "LW"⟩, ⟨⟨10, 0, -5⟩, ⟨0, 0, 0⟩, 3, "CF"⟩]
        ⟨⟨52.5, 0, 0⟩⟩ 1).final_ls
      ∧ (calculateLs ⟨⟨20, 0, 0⟩, [⟨15, 0, -5⟩, ⟨25, 0, -5⟩, ⟨25, 0, 5⟩, ⟨15, 0, 5⟩], 100⟩
        ⟨⟨0, 0, 0⟩, ⟨0, 0, 0⟩, 0, "ST"⟩
        [⟨⟨25, 0, 0⟩, ⟨0, 0, 0⟩, 5, "CB"⟩, ⟨⟨30, 0, 2⟩, ⟨0, 0, 0⟩, 4, "GK"⟩]
        [⟨⟨15, 0, 5⟩, ⟨0, 0, 0⟩, 6, "LW"⟩, ⟨⟨10, 0, -5⟩, ⟨0, 0, 0⟩, 3, "CF"⟩]
        ⟨⟨52.5, 0, 0⟩⟩ 1).final_ls ≤ 1)
    ∧ (calculateLs ⟨⟨20, 0, 0⟩, [⟨15, 0, -5⟩, ⟨25, 0, -5⟩, ⟨25, 0, 5⟩, ⟨15, 0, 5⟩], 100⟩
        ⟨⟨0, 0, 0⟩, ⟨0, 0, 0⟩, 0, "ST"⟩
        [⟨⟨25, 0, 0⟩, ⟨0, 0, 0⟩, 5, "CB"⟩, ⟨⟨30, 0, 2⟩, ⟨0, 0, 0⟩, 4, "GK"⟩]
        [⟨⟨15, 0, 5⟩, ⟨0, 0, 0⟩, 6, "LW"⟩, ⟨⟨10, 0, -5⟩, ⟨0, 0, 0⟩, 3, "CF"⟩]
        ⟨⟨52.5, 0, 0⟩⟩ 1).final_ls
      = (calculateLs ⟨⟨20, 0, 0⟩, [⟨15, 0, -5⟩, ⟨25, 0, -5⟩, ⟨25, 0, 5⟩, ⟨15, 0, 5⟩], 100⟩
        ⟨⟨0, 0, 0⟩, ⟨0, 0, 0⟩, 0, "ST"⟩
        [⟨⟨30, 0, 2⟩, ⟨0, 0, 0⟩, 4, "GK"⟩, ⟨⟨25, 0, 0⟩, ⟨0, 0, 0⟩, 5, "CB"⟩]
        [⟨⟨10, 0, -5⟩, ⟨0, 0, 0⟩, 3, "CF"⟩, ⟨⟨15, 0, 5⟩, ⟨0, 0, 0⟩, 6, "LW"⟩]
        ⟨⟨52.5, 0, 0⟩⟩ 1).final_ls :=
  C2_final_ls_bounds_and_permutation_invariance _ _ _ _
    (List.Perm.swap _ _ _) (List.Perm.swap _ _ _)

/-- C3: the aggregator combines the three sub-scores exactly as
situationValue = 0.4(TE) + 0.6(T+E)/2, raw_ls = situationValue(0.5+0.5F),
final_ls = logistic(10(raw_ls - 0.5)); in the real-valued model the
final score is always finite, so the non-finite-to-0 guard of the source is
the identity and the logistic form always holds. -/
theorem C3_aggregation_formula (lq : LQ) (carrier : Player)
    (defenders attackers : List Player) (goal : Goal) (dir : ℝ) :
    (calculateLs lq carrier defenders attackers goal dir).details.final.situationValue
        = 0.4 * ((calculateLs lq carrier defenders attackers goal dir).threatPotentialScore
            * (calculateLs lq carrier defenders attackers goal dir).exploitationScore)
          + 0.6 * (((calculateLs lq carrier defenders attackers goal dir).threatPotentialScore
            + (calculateLs lq carrier defenders attackers goal dir).exploitationScore) / 2)
      ∧ (calculateLs lq carrier defenders attackers goal dir).details.final.raw_ls
        = (calculateLs lq carrier defenders attackers goal dir).details.final.situationValue
            * (0.5 + 0.5 * (calculateLs lq carrier defenders attackers goal dir).feasibilityScore)
      ∧ (calculateLs lq carrier defenders attackers goal dir).final_ls
        = 1 / (1 + Real.exp (-(10 : ℝ)
            * ((calculateLs lq carrier defenders attackers goal dir).details.final.raw_ls
              - 0.5))) := by
  refine ⟨?_, ?_, ?_⟩ <;> simp only [calculateLs] <;> norm_num

/-- C8: with zero defenders and zero attackers the exploitation score is a
well-defined non-negative real (no division by zero: every denominator on
this path is at least 1) and the strategic bonus is exactly 0. -/
theorem C8_empty_lists_safe (lq : LQ) (goal : Goal) (carrier : Option Player) (dir : ℝ) :
    0 ≤ (calculateExploitationScore lq [] [] carrier).finalScore
      ∧ calculateStrategicBonus lq goal [] [] dir = 0 := by
  constructor
  · have h1 : Real.exp (-(0.1) * 99) < 1 := by
      rw [show (1 : ℝ) = Real.exp 0 by simp]
      exact Real.exp_lt_exp.mpr (by norm_num)
    have h2 : 0 < Real.exp (-(0.1) * 99) := Real.exp_pos _
    simp only [calculateExploitationScore, List.filter_nil, List.length_nil]
    norm_num [Real.tanh_zero, Real.exp_zero, le_min_iff]
    nlinarith
  · unfold calculateStrategicBonus
    rw [if_pos (Or.inl rfl)]

/-- C9: on the 3-frame buffer at t = 0, 100, 200, querying t = 150 yields
(prev, next) = (frame at 100, frame at 200); querying t = -5 yields
(first, first); querying t = 500 yields (last, last). -/
theorem C9_three_frame_window_selection :
    findFramesForInterpolation bufThree 150 = some (frameT100, frameT200)
      ∧ findFramesForInterpolation bufThree (-5) = some (frameT0, frameT0)
      ∧ findFramesForInterpolation bufThree 500 = some (frameT200, frameT200) := by
  decide

/-- C10: a buffer with fewer than two frames yields no interpolation pair
for any query time. -/
theorem C10_short_buffer_returns_none (frames : List Frame) (clock : ℚ)
    (h : frames.length < 2) : findFramesForInterpolation frames clock = none := by
  unfold findFramesForInterpolation
  rw [if_pos h]

/-- C10 witness: a one-frame buffer whose frame timestamp equals the query
time still produces no (first, first) pair. -/
theorem C10_witness :
    [frameT0].length < 2 ∧ findFramesForInterpolation [frameT0] 0 = none :=
  ⟨by decide, C10_short_buffer_returns_none _ _ (by decide)⟩

/-- C4 counterexample: with frames at t = 0, 100, 300 and entity p1 present
at t = 0 (raw (0,0)), absent at t = 100 and back at raw (100,100) at t = 300,
the driver update at playback time 200 uses the window (frame at 100,
frame at 300); p1 appears in the next frame, so `updateTarget` is driven to
its t = 300 scene position - target ground point (x, z) = (1, 1), with the
mesh height 9/10 kept - not to the midpoint (1/2, 1/2) of its t = 0 and
t = 300 ground positions, and its inferred flag is false, not true. -/
theorem C4_counterexample_no_midpoint :
    (alookup gapRun200.playerMap "p1").map PState.targetRoot
        = some (1, 9 / 10, 1)
      ∧ (alookup gapRun200.playerMap "p1").map PState.isInferred = some false
      ∧ ¬ ((1 : ℚ), (9 / 10 : ℚ), (1 : ℚ)) = ((1 / 2 : ℚ), (9 / 10 : ℚ), (1 / 2 : ℚ)) := by
  decide

/-- C4 amended: in the same scenario the update at playback time 100
(window (frame at 0, frame at 100)) opens a gap ending at t = 300, flags p1
inferred and targets it at its t = 0 ground position (the gap alpha clamps
to 0); but the update at playback time 200 (window (frame at 100, frame at
300)) finds p1 in the next frame, so it treats p1 as live: the gap state is
cleared, the inferred flag is set to false, and p1's target becomes its
t = 300 position, which serves as both interpolation endpoints because no
prev sample exists.  No midpoint placement occurs.  (The mesh keeps its
constructor height y = 9/10; `updateTarget` only moves the ground
coordinates.) -/
theorem C4_gap_then_live_snap :
    alookup gapRun100.playerMap "p1"
        = some ⟨(0, 9 / 10, 0), (0, 9 / 10, 0), true, sampP1T0⟩
      ∧ alookup gapRun100.gapStates "p1" = some ⟨(0, 0, 0), (1, 0, 1), 100, 300⟩
      ∧ alookup gapRun200.playerMap "p1"
        = some ⟨(0, 9 / 10, 0), (1, 9 / 10, 1), false, sampP1T0⟩
      ∧ alookup gapRun200.gapStates "p1" = none := by
  decide

/-- C5: the defensive-line metric includes the goalkeeper.  With the
goalkeeper deepest (x = -52, own goal at x = -52.5) and four outfield
defenders at x = -40, -38, -36, -34, the source's line depth is the mean of
the goalkeeper and the three deepest outfield defenders (-41.5), while the
claim's outfield-only computation yields -37. -/
theorem C5_goalkeeper_included_in_line :
    (getDefensiveLineMetrics backlineWithGK (-1)).line_depth = -41.5
      ∧ claimDefensiveLineDepth backlineWithGK (-1) = -37
      ∧ ¬ ((-41.5 : ℚ) = (-37 : ℚ)) := by
  decide

/-- C6 counterexample: the all-coincident triangle at the origin has zero
area, yet the point-in-triangle test reports the point (5, 0, 5) inside it
(with s = t = A = 0 every sign check passes), so degenerate triangles are
not treated as containing no points. -/
theorem C6_degenerate_triangle_contains_point :
    triA vOrigin vOrigin vOrigin = 0
      ∧ isPointInTriangle pFarPoint vOrigin vOrigin vOrigin = true := by
  constructor
  · simp only [triA, vOrigin]
    norm_num
  · simp only [isPointInTriangle, triS, triT, triA, vOrigin, pFarPoint]
    norm_num

/-- C6 amended: for a degenerate (zero-area, A = 0) triangle the test does
not return false everywhere; it returns true exactly when the barycentric
form s is exactly 0 and s + t is at most 0 (equivalently t is at most 0) -
in particular an all-coincident triangle contains every point. -/
theorem C6_degenerate_characterization (p p0 p1 p2 : Vec3)
    (hA : triA p0 p1 p2 = 0) :
    isPointInTriangle p p0 p1 p2 = true
      ↔ triS p p0 p1 p2 = 0 ∧ triT p p0 p1 p2 ≤ 0 := by
  simp only [isPointInTriangle, hA]
  by_cases hzs : triS p p0 p1 p2 = 0
  · rw [if_neg (fun hc => hc.2.1 hzs), if_neg (lt_irrefl 0), decide_eq_true_eq, hzs]
    constructor
    · intro h
      exact ⟨rfl, by linarith [h.2]⟩
    · intro h
      exact ⟨le_refl 0, by linarith [h.2]⟩
  · constructor
    · intro htrue
      by_cases hguard :
          (¬ (triS p p0 p1 p2 < 0 ↔ triT p p0 p1 p2 < 0))
            ∧ triS p p0 p1 p2 ≠ 0 ∧ triT p p0 p1 p2 ≠ 0
      · rw [if_pos hguard] at htrue
        exact absurd htrue (by simp)
      · rw [if_neg hguard, if_neg (lt_irrefl 0), decide_eq_true_eq] at htrue
        have hspos : 0 < triS p p0 p1 p2 := lt_of_le_of_ne htrue.1 (Ne.symm hzs)
        have htneg : triT p p0 p1 p2 < 0 := by linarith [htrue.2]
        exact absurd
          ⟨fun hiff => (not_lt_of_gt hspos) (hiff.mpr htneg), hzs, ne_of_lt htneg⟩
          hguard
    · intro h
      exact absurd h.1 hzs

/-- C6 witness: the characterization applied to the concrete zero-area
triangle with all vertices at the origin and the point (5, 0, 5). -/
theorem C6_witness :
    triA vOrigin vOrigin vOrigin = 0
      ∧ (isPointInTriangle pFarPoint vOrigin vOrigin vOrigin = true
        ↔ triS pFarPoint vOrigin vOrigin vOrigin = 0
          ∧ triT pFarPoint vOrigin vOrigin vOrigin ≤ 0) :=
  ⟨by simp only [triA, vOrigin]; norm_num,
    C6_degenerate_characterization pFarPoint vOrigin vOrigin vOrigin
      (by simp only [triA, vOrigin]; norm_num)⟩

/-- C7 amended: whenever the defenders list yields a nearest distance d
(it is nonempty), the pressure factor is the logistic of d - 3 at rate 1.5
with d replaced by the sentinel 99 exactly when d = 0 (the JS `|| 99`
replaces only falsy values); when the defenders list is empty the distance
is Infinity, which is truthy, and the factor evaluates to exactly 1, not to
the logistic of the sentinel. -/
theorem C7_pressure_factor_characterization (lq : LQ) (carrier : Player)
    (defenders : List Player) (d : ℝ)
    (h : (findClosestPlayer carrier.pos defenders).2 = some d) :
    (calculateFeasibilityScore lq carrier defenders).pressureFactor
      = 1 / (1 + Real.exp (-(1.5) * ((if d = 0 then 99 else d) - 3.0))) := by
  simp only [calculateFeasibilityScore, h]

/-- C7 counterexample: with a defender standing exactly on the carrier the
nearest distance is 0, and the code's pressure factor is the logistic of the
sentinel (99 - 3), not the logistic of the distance (0 - 3) that the claim
prescribes; the two logistic values differ. -/
theorem C7_sentinel_fires_on_zero_distance :
    (calculateFeasibilityScore lqAtOrigin carrierAtOrigin [defenderAtOrigin]).pressureFactor
        = 1 / (1 + Real.exp (-(1.5) * ((99 : ℝ) - 3.0)))
      ∧ 1 / (1 + Real.exp (-(1.5) * ((99 : ℝ) - 3.0)))
        ≠ 1 / (1 + Real.exp (-(1.5) * ((0 : ℝ) - 3.0))) := by
  constructor
  · have h : (findClosestPlayer carrierAtOrigin.pos [defenderAtOrigin]).2
        = some (0 : ℝ) := by
      rw [findClosestPlayer_snd]
      simp [defenderAtOrigin, carrierAtOrigin, Vec3.distanceTo]
    simp only [calculateFeasibilityScore, h]
    norm_num
  · intro heq
    have ha : (0 : ℝ) < 1 + Real.exp (-(1.5) * ((99 : ℝ) - 3.0)) := by positivity
    have hb : (0 : ℝ) < 1 + Real.exp (-(1.5) * ((0 : ℝ) - 3.0)) := by positivity
    rw [div_eq_div_iff ha.ne' hb.ne'] at heq
    have hexp : Real.exp (-(1.5) * ((99 : ℝ) - 3.0))
        = Real.exp (-(1.5) * ((0 : ℝ) - 3.0)) := by linarith
    rw [Real.exp_eq_exp] at hexp
    norm_num at hexp

/-- C7 witness: the characterization applied to a defender 3 units from the
carrier, whose nearest distance is the square root of 9. -/
theorem C7_witness :
    (findClosestPlayer carrierAtOrigin.pos [defenderAt3]).2 = some (Real.sqrt 9)
      ∧ (calculateFeasibilityScore lqAtOrigin carrierAtOrigin [defenderAt3]).pressureFactor
        = 1 / (1 + Real.exp (-(1.5)
            * ((if Real.sqrt 9 = 0 then 99 else Real.sqrt 9) - 3.0))) := by
  have h : (findClosestPlayer carrierAtOrigin.pos [defenderAt3]).2
      = some (Real.sqrt 9) := by
    rw [findClosestPlayer_snd]
    simp only [defenderAt3, carrierAtOrigin, Vec3.distanceTo, List.map_cons,
      List.map_nil]
    norm_num
  exact ⟨h, C7_pressure_factor_characterization lqAtOrigin carrierAtOrigin
    [defenderAt3] (Real.sqrt 9) h⟩

/-- C1: `calculateLs` does not run the carrier/intercept Team Control model
on its offensive side.  It calls `calculateExploitationScore` without the
carrier argument, so the receiver filter excludes nobody and the metrics
call falls back to the no-carrier branch.  Concretely, with the carrier
itself standing at the LQ center as the only attacker, the code reports
attFastestTime = 0 (the carrier counted as a receiver, at speed floor 1.0
with no ball-travel-time lower bound) and a positive support score tanh 2,
whereas the claimed model - receivers exclude the carrier - would leave an
empty receiver set with sentinel attFastestTime = 99 and support 0. -/
theorem C1_exploitation_runs_no_carrier_mode :
    (calculateLs lqAtOrigin carrierAtOrigin [] [carrierAtOrigin] goalAt52
        1).details.exploit.attFastestTime = 0
      ∧ (calculateLs lqAtOrigin carrierAtOrigin [] [carrierAtOrigin] goalAt52
        1).details.exploit.attSupportScore = Real.tanh 2
      ∧ Real.tanh 2 ≠ 0
      ∧ (0 : ℝ) ≠ 99 := by
  have hdist : carrierAtOrigin.pos.distanceTo lqAtOrigin.center = 0 := by
    simp [carrierAtOrigin, lqAtOrigin, Vec3.distanceTo]
  have hrecv : [carrierAtOrigin].filter (fun p =>
      decide (¬ (none : Option Player) = some p
        ∧ p.pos.distanceTo lqAtOrigin.center < 20)) = [carrierAtOrigin] := by
    simp [List.filter_cons, hdist]
  have hexp : (calculateLs lqAtOrigin carrierAtOrigin [] [carrierAtOrigin] goalAt52
      1).details.exploit = calculateExploitationScore lqAtOrigin [] [carrierAtOrigin] none :=
    rfl
  have htanh : 0 < Real.tanh 2 := by
    rw [Real.tanh_eq_sinh_div_cosh]
    exact div_pos (Real.sinh_pos_iff.mpr (by norm_num)) (Real.cosh_pos 2)
  refine ⟨?_, ?_, htanh.ne', by norm_num⟩ <;>
  · rw [hexp]
    simp only [calculateExploitationScore, hrecv, List.filter_nil, List.length_nil,
      List.length_cons, Option.map_none', TCM_fastest_eq, TCM_ttas_eq]
    norm_num [minOr99, ttaOf, noCarrierTTA, hdist, List.min?_cons, Real.exp_zero]
